import Mathlib

/-!
Verification of the ads-signal-detection-plugin core against its
natural-language specification.

The development shallowly embeds the two core components:

* the statistical anomaly detector
  (`src/detectors/statistical.py`, `src/detectors/base.py`):
  per-metric rolling windows (`collections.deque(maxlen=N)`), the z-score /
  IQR / MAD outlier tests, severity and confidence derivation, baseline
  statistics, and the health check;
* the batched delivery pipeline (`src/memory/interface.py`,
  `AdsMemoryInterface` in batch mode): buffering, flush, retry-on-failure;
* the `AnomalyEvent` dict round trip (`src/core/models.py`).

Numeric modelling: Python floats are modelled as rationals (`ℚ`).
`numpy.std` is the square root of the population variance; to stay inside
`ℚ` every quantity that the source obtains through a square root is
represented by its square (`popVar` for `np.std(...)**2`, the `z_score_sq`
field for `z_score**2`, `confidence_sq` for `confidence**2`), and every
comparison `sqrt a > c` of the source is rendered as `a > c^2` /
`a / b > c^2`, which is equivalent because both sides are nonnegative
(all thresholds in the configuration surface are positive).  Quantities
the source computes without square roots (IQR and MAD statistics,
percentiles, medians, means) are embedded exactly.

Delivery modelling: the downstream sink is an opaque fault schedule
`fault : ℕ → Bool` (attempt `n` of `_send_to_ads` raises iff `fault n`);
`sent` is the ordered log of events the sink actually received and
`attempts` the number of `_send_to_ads` calls made so far.  The
`arrivals` argument of `flush_batch` models events appended to
`_batch_buffer` by concurrent `ingest_anomaly` calls while the flush is
awaiting the downstream send (the buffer is cleared before the await and
extended on failure, exactly as in `_flush_batch`).
-/

/-! ## Rational list statistics (numpy counterparts) -/

/-- Mean of a list of rationals (`np.mean`); 0 on the empty list
(guarded at every call site, as in the source). -/
def listMean (l : List ℚ) : ℚ := l.sum / (l.length : ℚ)

/-- Population variance (`np.std(l)**2`): mean squared deviation from the
mean.  `np.std` itself is `Real.sqrt (popVar l)`; the development only ever
needs the square. -/
def popVar (l : List ℚ) : ℚ :=
  (l.map (fun x => (x - listMean l) ^ 2)).sum / (l.length : ℚ)

/-- Minimum of a nonempty list (`np.min`); 0 on the empty list. -/
def listMin : List ℚ → ℚ
  | [] => 0
  | x :: xs => xs.foldl min x

/-- Maximum of a nonempty list (`np.max`); 0 on the empty list. -/
def listMax : List ℚ → ℚ
  | [] => 0
  | x :: xs => xs.foldl max x

/-- Numpy `np.percentile(l, p)` with the default linear interpolation: sort
ascending, take `h = (n-1)*p/100`, and interpolate between the entries at
`⌊h⌋` and `⌊h⌋+1`. -/
def percentile (l : List ℚ) (p : ℚ) : ℚ :=
  let s := List.insertionSort (fun a b => a ≤ b) l
  let n := s.length
  let h : ℚ := ((n : ℚ) - 1) * p / 100
  let i : ℕ := (⌊h⌋).toNat
  let g : ℚ := h - (i : ℚ)
  match s.get? i, s.get? (i + 1) with
  | some a, some b => a + g * (b - a)
  | some a, none => a
  | none, _ => 0

/-- Numpy `np.median l`, which agrees with the 50th percentile under linear
interpolation (middle element for odd length, midpoint of the two middle
elements for even length). -/
def listMedian (l : List ℚ) : ℚ := percentile l 50

/-! ## Association lists (Python dicts with string keys) -/

/-- Python `d.get(k)` / `k in d`: first binding of `k`. -/
def lookupA {β : Type} : List (String × β) → String → Option β
  | [], _ => none
  | (k', v) :: rest, k => if k' = k then some v else lookupA rest k

/-- Python `d[k] = v`: replace the binding of `k` in place, or append a new
binding.  Dicts built by the source always have distinct keys. -/
def insertA {β : Type} : List (String × β) → String → β → List (String × β)
  | [], k, v => [(k, v)]
  | (k', v') :: rest, k, v =>
    if k' = k then (k, v) :: rest else (k', v') :: insertA rest k v

/-- Window lookup `self.windows[metric]` (the window dict holds every configured metric
after initialization; `getD []` renders the initial empty deque). -/
def lookupW (ws : List (String × List ℚ)) (m : String) : List ℚ :=
  (lookupA ws m).getD []

/-! ## RollingWindow: `collections.deque(maxlen=N)` -/

/-- Push `deque(maxlen=N).append v`: append on the right, evicting from the left
once the length exceeds `N` (for `w.length ≤ N` this drops at most one
element). -/
def deque_append (N : ℕ) (w : List ℚ) (v : ℚ) : List ℚ :=
  (w ++ [v]).drop (w.length + 1 - N)

/-! ## Detector configuration and outlier methods -/

/-- Configuration surface of `StatisticalAnomalyDetector._initialize`
(defaults as in the source). -/
structure StatConfig where
  window_size : ℕ := 100
  std_dev_threshold : ℚ := 3
  min_samples : ℕ := 10
  metrics : List String := []
  use_iqr : Bool := false
  iqr_multiplier : ℚ := 3 / 2
  use_mad : Bool := false
  mad_threshold : ℚ := 3
deriving DecidableEq, Repr

/-- Embeds `_detect_zscore_anomaly(self, window_data, value)`.  The source fires
when `abs((value - mean)/std) > threshold` with `mean`/`std` taken over
`window_data[:-1]`; here `std^2 = popVar` and the comparison is squared
(`z^2 > t^2`), equivalent for the positive thresholds of the
configuration surface.  Guards: fewer than 2 entries, or `std == 0`,
never fire. -/
def detect_zscore_anomaly (threshold : ℚ) (window_data : List ℚ) (value : ℚ) : Bool :=
  if window_data.length < 2 then false
  else
    let priors := window_data.dropLast
    let mean_val := listMean priors
    let var_val := popVar priors
    if var_val = 0 then false
    else decide ((value - mean_val) ^ 2 / var_val > threshold ^ 2)

/-- Embeds `_detect_iqr_anomaly(self, window_data, value)`: quartiles of
`window_data[:-1]`, fire when the value escapes
`[q1 - k*iqr, q3 + k*iqr]`; fewer than 4 entries or `iqr == 0` never
fire.  All quantities are exactly rational. -/
def detect_iqr_anomaly (multiplier : ℚ) (window_data : List ℚ) (value : ℚ) : Bool :=
  if window_data.length < 4 then false
  else
    let priors := window_data.dropLast
    let q1 := percentile priors 25
    let q3 := percentile priors 75
    let iqr := q3 - q1
    if iqr = 0 then false
    else decide (value < q1 - multiplier * iqr ∨ value > q3 + multiplier * iqr)

/-- Embeds `_detect_mad_anomaly(self, window_data, value)`: median absolute
deviation of `window_data[:-1]`, fire when `|value - median| / mad`
exceeds the threshold; fewer than 3 entries or `mad == 0` never fire.
All quantities are exactly rational. -/
def detect_mad_anomaly (threshold : ℚ) (window_data : List ℚ) (value : ℚ) : Bool :=
  if window_data.length < 3 then false
  else
    let priors := window_data.dropLast
    let med := listMedian priors
    let mad := listMedian (priors.map (fun x => |x - med|))
    if mad = 0 then false
    else decide (|value - med| / mad > threshold)

/-- The per-method evidence dict built by `_detect_anomaly_for_metric`
(`z_score_sq` is the square of the source's `z_score` entry). -/
structure MethodEvidence where
  metric : String
  method : String
  z_score_sq : ℚ
  threshold : ℚ
  predicted : ℚ
  actual : ℚ
deriving DecidableEq, Repr

/-- The z-score branch of `_detect_anomaly_for_metric`: the reported score
is `abs((value - mean)/std)` when `std > 0` and 0 otherwise, stored
squared. -/
def zscore_evidence (threshold : ℚ) (metric : String) (window_data : List ℚ) (value : ℚ) :
    MethodEvidence :=
  let priors := window_data.dropLast
  let mean_val := listMean priors
  let var_val := popVar priors
  { metric := metric
    method := "zscore"
    z_score_sq := if var_val > 0 then (value - mean_val) ^ 2 / var_val else 0
    threshold := threshold
    predicted := mean_val
    actual := value }

/-- The IQR branch of `_detect_anomaly_for_metric`: score
`abs(value - median)/iqr` when `iqr > 0` else 0, stored squared. -/
def iqr_evidence (multiplier : ℚ) (metric : String) (window_data : List ℚ) (value : ℚ) :
    MethodEvidence :=
  let priors := window_data.dropLast
  let q1 := percentile priors 25
  let q3 := percentile priors 75
  let iqr := q3 - q1
  let med := listMedian priors
  { metric := metric
    method := "iqr"
    z_score_sq := if iqr > 0 then (value - med) ^ 2 / iqr ^ 2 else 0
    threshold := multiplier
    predicted := med
    actual := value }

/-- The MAD branch of `_detect_anomaly_for_metric`: score
`abs(value - median)/mad` when `mad > 0` else 0, stored squared. -/
def mad_evidence (threshold : ℚ) (metric : String) (window_data : List ℚ) (value : ℚ) :
    MethodEvidence :=
  let priors := window_data.dropLast
  let med := listMedian priors
  let mad := listMedian (priors.map (fun x => |x - med|))
  { metric := metric
    method := "mad"
    z_score_sq := if mad > 0 then (value - med) ^ 2 / mad ^ 2 else 0
    threshold := threshold
    predicted := med
    actual := value }

/-- Embeds `_detect_anomaly_for_metric(self, metric, value)`: each method is an
early-`return` in the source, so the first method that fires (z-score,
then IQR if enabled, then MAD if enabled) yields the single returned
evidence dict; `None` when nothing fires. -/
def detect_anomaly_for_metric (cfg : StatConfig) (metric : String)
    (window_data : List ℚ) (value : ℚ) : Option MethodEvidence :=
  if detect_zscore_anomaly cfg.std_dev_threshold window_data value then
    some (zscore_evidence cfg.std_dev_threshold metric window_data value)
  else if cfg.use_iqr && detect_iqr_anomaly cfg.iqr_multiplier window_data value then
    some (iqr_evidence cfg.iqr_multiplier metric window_data value)
  else if cfg.use_mad && detect_mad_anomaly cfg.mad_threshold window_data value then
    some (mad_evidence cfg.mad_threshold metric window_data value)
  else
    none

/-! ## Severity and confidence -/

/-- The `Severity` enum of `src/core/models.py`. -/
inductive Severity
  | low
  | medium
  | high
  | critical
deriving DecidableEq, Repr

/-- Severity as a linear rank (for monotonicity statements). -/
def severityRank : Severity → ℕ
  | Severity.low => 0
  | Severity.medium => 1
  | Severity.high => 2
  | Severity.critical => 3

/-- Python `max` of a nonempty list given as head and tail. -/
def maxScore (z : ℚ) (zs : List ℚ) : ℚ := zs.foldl max z

/-- Embeds `_calculate_severity(self, anomalies)` over the list of `z_score`
entries (the true, un-squared scores): maximum score against the fixed
thresholds 5 / 4 / 3.5.  The source calls it only with a nonempty list;
the `[]` branch is unreachable. -/
def calculate_severity (zs : List ℚ) : Severity :=
  match zs with
  | [] => Severity.low
  | z :: rest =>
    let m := maxScore z rest
    if m > 5 then Severity.critical
    else if m > 4 then Severity.high
    else if m > 7 / 2 then Severity.medium
    else Severity.low

/-- The severity map of the spec ("max_z > 5 → CRITICAL; > 4 → HIGH;
> 3.5 → MEDIUM; else → LOW"), as a function of the maximum score alone. -/
def severityOfMax (m : ℚ) : Severity :=
  if m > 5 then Severity.critical
  else if m > 4 then Severity.high
  else if m > 7 / 2 then Severity.medium
  else Severity.low

/-- Embeds `_calculate_severity` in the squared representation used by the full
pipeline: thresholds 5 / 4 / 3.5 become 25 / 16 / 12.25 on squared
scores (equivalent since scores are nonnegative). -/
def calculate_severity_sq (anomalies : List MethodEvidence) : Severity :=
  match anomalies with
  | [] => Severity.low
  | e :: rest =>
    let m := maxScore e.z_score_sq (rest.map (fun x => x.z_score_sq))
    if m > 25 then Severity.critical
    else if m > 16 then Severity.high
    else if m > 49 / 4 then Severity.medium
    else Severity.low

/-- Embeds `_calculate_confidence(self, anomalies)` in the squared
representation: `base = min(max_z/5, 1)` becomes
`min(max_z_sq/25, 1)`, the agreement boost `*1.2` (capped at 1) becomes
`*1.44` (capped at 1), and the final product with the rational
`sample_factor` squares the factor; the result is the square of the
source's confidence. -/
def calculate_confidence_sq (cfg : StatConfig) (windows : List (String × List ℚ))
    (anomalies : List MethodEvidence) : ℚ :=
  match anomalies with
  | [] => 0
  | e :: rest =>
    let max_sq := maxScore e.z_score_sq (rest.map (fun x => x.z_score_sq))
    let base := min (max_sq / 25) 1
    let boosted := if 0 < rest.length then min (base * 36 / 25) 1 else base
    let sample_factor :=
      min (((lookupW windows e.metric).length : ℚ) / (cfg.window_size : ℚ)) 1
    boosted * sample_factor ^ 2

/-! ## Baseline statistics -/

/-- One entry of `_baseline_stats` (`std_sq` is the square of the stored
`std`). -/
structure BaselineStats where
  mean : ℚ
  std_sq : ℚ
  minv : ℚ
  maxv : ℚ
  median : ℚ
  count : ℕ
deriving DecidableEq, Repr

/-- The stats dict computed per metric in `_update_baseline_stats`. -/
def baseline_for (w : List ℚ) : BaselineStats :=
  { mean := listMean w
    std_sq := popVar w
    minv := listMin w
    maxv := listMax w
    median := listMedian w
    count := w.length }

/-- Embeds `_update_baseline_stats(self)`: for every metric whose window holds at
least `min_samples` values, overwrite its baseline entry. -/
def update_baseline_stats (min_samples : ℕ) (ws : List (String × List ℚ))
    (bs : List (String × BaselineStats)) : List (String × BaselineStats) :=
  ws.foldl
    (fun acc p => if min_samples ≤ p.2.length then insertA acc p.1 (baseline_for p.2) else acc)
    bs

/-! ## The detect pipeline -/

/-- Mutable state of an initialized `StatisticalAnomalyDetector`: the
per-metric windows and the baseline stats of the base class. -/
structure DetectorState where
  windows : List (String × List ℚ)
  baseline : List (String × BaselineStats)
deriving DecidableEq, Repr

/-- State right after `_initialize`: one empty deque per configured
metric, no baseline stats. -/
def initState (cfg : StatConfig) : DetectorState :=
  { windows := cfg.metrics.map (fun m => (m, [])), baseline := [] }

/-- Accumulator of the `for metric in self.metrics` loop of `_detect`. -/
structure DetectAcc where
  windows : List (String × List ℚ)
  anomalies : List MethodEvidence
  z_scores : List (String × ℚ)
  raw_values : List (String × ℚ)
  predicted_values : List (String × ℚ)
deriving DecidableEq, Repr

/-- One iteration of the `_detect` loop: skip metrics absent from the
sample, record the raw value, push into the window, skip scoring below
`min_samples`, otherwise collect the evidence (if any) together with its
squared z-score and predicted value. -/
def process_metric (cfg : StatConfig) (data : List (String × ℚ))
    (acc : DetectAcc) (metric : String) : DetectAcc :=
  match lookupA data metric with
  | none => acc
  | some value =>
    let raw2 := insertA acc.raw_values metric value
    let w2 := deque_append cfg.window_size (lookupW acc.windows metric) value
    let ws2 := insertA acc.windows metric w2
    if w2.length < cfg.min_samples then
      { windows := ws2, anomalies := acc.anomalies, z_scores := acc.z_scores,
        raw_values := raw2, predicted_values := acc.predicted_values }
    else
      match detect_anomaly_for_metric cfg metric w2 value with
      | some info =>
        { windows := ws2
          anomalies := acc.anomalies ++ [info]
          z_scores := insertA acc.z_scores metric info.z_score_sq
          raw_values := raw2
          predicted_values := insertA acc.predicted_values metric info.predicted }
      | none =>
        { windows := ws2, anomalies := acc.anomalies, z_scores := acc.z_scores,
          raw_values := raw2, predicted_values := acc.predicted_values }

/-- The `AnomalyEvent` built by `_detect` (fields relevant to the scoring
engine; `confidence_sq` is the square of the source's confidence, and
`z_scores` holds squared scores). -/
structure AnomalyEventOut where
  severity : Severity
  confidence_sq : ℚ
  data : List (String × ℚ)
  anomaly_type : String
  affected_metrics : List String
  z_scores : List (String × ℚ)
  raw_values : List (String × ℚ)
  predicted_values : List (String × ℚ)
  detection_methods : List String
deriving DecidableEq, Repr

/-- Embeds `StatisticalAnomalyDetector._detect(self, data)`: loop over the
configured metrics, update baseline statistics, and build one event when
at least one evidence was collected (`affected_metrics` are the keys of
`z_scores`, `detection_methods` the `method` entries of the evidence
list). -/
def detect (cfg : StatConfig) (st : DetectorState) (data : List (String × ℚ)) :
    DetectorState × Option AnomalyEventOut :=
  let acc0 : DetectAcc :=
    { windows := st.windows, anomalies := [], z_scores := [],
      raw_values := [], predicted_values := [] }
  let acc := cfg.metrics.foldl (process_metric cfg data) acc0
  let st2 : DetectorState :=
    { windows := acc.windows,
      baseline := update_baseline_stats cfg.min_samples acc.windows st.baseline }
  match acc.anomalies with
  | [] => (st2, none)
  | _ =>
    (st2,
      some
        { severity := calculate_severity_sq acc.anomalies
          confidence_sq := calculate_confidence_sq cfg acc.windows acc.anomalies
          data := data
          anomaly_type := "statistical_outlier"
          affected_metrics := acc.z_scores.map (fun p => p.1)
          z_scores := acc.z_scores
          raw_values := acc.raw_values
          predicted_values := acc.predicted_values
          detection_methods := acc.anomalies.map (fun a => a.method) })

/-- Embeds `EnhancedBaseDetector._generate_test_data`. -/
def generate_test_data : List (String × ℚ) := [("test", 1), ("value", 1 / 2)]

/-- Embeds `EnhancedBaseDetector.health_check` on an initialized detector: run
`_detect` on the synthetic sample and report `true` (the pure model
raises no exception; the source returns `false` exactly when `_detect`
raises).  The returned state is the detector state after the call —
`_detect` runs on the live windows. -/
def health_check (cfg : StatConfig) (st : DetectorState) : Bool × DetectorState :=
  (true, (detect cfg st generate_test_data).1)

/-- Sequential detection over a list of samples, threading the state and
recording each call's result (the facade's repeated `detect` calls). -/
def run_detect (cfg : StatConfig) : DetectorState → List (List (String × ℚ)) →
    List (Option AnomalyEventOut)
  | _, [] => []
  | st, d :: ds =>
    let r := detect cfg st d
    r.2 :: run_detect cfg r.1 ds

/-! ## Delivery pipeline (`AdsMemoryInterface`, batch mode) -/

/-- State of the delivery buffer plus the ghost observation of the
downstream sink: `buffer` is `_batch_buffer`, `sent` the ordered log of
events the sink received, `attempts` the number of `_send_to_ads` calls
made so far (indexing the fault schedule). -/
structure DeliveryState (α : Type) where
  buffer : List α
  sent : List α
  attempts : ℕ
deriving DecidableEq, Repr

/-- Embeds `_send_batch_to_ads(self, batch)`: send the batch one event at a time;
the first failing `_send_to_ads` call raises, aborting the loop (already
sent events stay sent).  Returns the sink log, the attempt counter, and
whether the whole batch went through. -/
def send_batch_to_ads {α : Type} (fault : ℕ → Bool) :
    List α → List α → ℕ → List α × ℕ × Bool
  | [], sent, attempts => (sent, attempts, true)
  | a :: rest, sent, attempts =>
    if fault attempts then (sent, attempts + 1, false)
    else send_batch_to_ads fault rest (sent ++ [a]) (attempts + 1)

/-- Embeds `_flush_batch(self)`: return if the buffer is empty; otherwise copy
the buffer, clear it, and await `_send_batch_to_ads`.  `arrivals` are the
events concurrent `ingest_anomaly` calls append to the (cleared) buffer
while the send is awaited.  On failure the full copied batch is re-added
with `extend` — appended after the arrivals; the exception is swallowed
(logged), never re-raised. -/
def flush_batch {α : Type} (fault : ℕ → Bool) (arrivals : List α)
    (st : DeliveryState α) : DeliveryState α :=
  if st.buffer.isEmpty then st
  else
    match send_batch_to_ads fault st.buffer st.sent st.attempts with
    | (sent2, attempts2, true) =>
      { buffer := arrivals, sent := sent2, attempts := attempts2 }
    | (sent2, attempts2, false) =>
      { buffer := arrivals ++ st.buffer, sent := sent2, attempts := attempts2 }

/-- Embeds `ingest_anomaly(self, anomaly)` in batch mode: append to the buffer
and flush immediately when `max_batch_size` is reached. -/
def ingest_anomaly {α : Type} (fault : ℕ → Bool) (max_batch_size : ℕ)
    (st : DeliveryState α) (a : α) : DeliveryState α :=
  let st2 : DeliveryState α :=
    { buffer := st.buffer ++ [a], sent := st.sent, attempts := st.attempts }
  if max_batch_size ≤ st2.buffer.length then flush_batch fault [] st2 else st2

/-- A sequence of `ingest_anomaly` calls. -/
def ingest_many {α : Type} (fault : ℕ → Bool) (max_batch_size : ℕ)
    (st : DeliveryState α) (xs : List α) : DeliveryState α :=
  xs.foldl (ingest_anomaly fault max_batch_size) st

/-- Runs `n` successive flush cycles with no concurrent arrivals (the periodic
flush timer firing `n` times). -/
def flush_iter {α : Type} (fault : ℕ → Bool) : ℕ → DeliveryState α → DeliveryState α
  | 0, st => st
  | n + 1, st => flush_iter fault n (flush_batch fault [] st)

/-! ## AnomalyEvent dict round trip (`src/core/models.py`) -/

/-- Embeds `Severity.value` (the string payload of the enum). -/
def Severity.value : Severity → String
  | Severity.low => "low"
  | Severity.medium => "medium"
  | Severity.high => "high"
  | Severity.critical => "critical"

/-- Embeds the `Severity(...)` enum constructor lookup used by
`from_dict`; an unknown string raises `ValueError` in Python, rendered as
`none`. -/
def Severity.ofValue (s : String) : Option Severity :=
  if s = "low" then some Severity.low
  else if s = "medium" then some Severity.medium
  else if s = "high" then some Severity.high
  else if s = "critical" then some Severity.critical
  else none

/-- The `AnomalyEvent` dataclass of `src/core/models.py`.  Payload dicts
are rendered as association lists; `Optional[...]` fields as `Option`.
`event_id` is whatever string the constructor received (the
`uuid.uuid4()` default is only used when the field is absent). -/
structure AnomalyEvent where
  detector_id : String
  timestamp : ℚ
  severity : Severity
  confidence : ℚ
  data : List (String × ℚ)
  metadata : Option (List (String × String))
  correlation_id : Option String
  event_id : String
  anomaly_type : Option String
  affected_metrics : List String
  z_scores : Option (List (String × ℚ))
  raw_values : Option (List (String × ℚ))
  predicted_values : Option (List (String × ℚ))
deriving DecidableEq, Repr

/-- The dictionary produced by `AnomalyEvent.to_dict`: every key is
present; `severity` holds the enum's string value, and `metadata` holds
`self.metadata or {}`, which is never `None`. -/
structure EventDict where
  detector_id : String
  timestamp : ℚ
  severity : String
  confidence : ℚ
  data : List (String × ℚ)
  metadata : List (String × String)
  correlation_id : Option String
  event_id : String
  anomaly_type : Option String
  affected_metrics : List String
  z_scores : Option (List (String × ℚ))
  raw_values : Option (List (String × ℚ))
  predicted_values : Option (List (String × ℚ))
deriving DecidableEq, Repr

/-- Embeds `AnomalyEvent.to_dict`.  Python's `self.metadata or {}` yields
`{}` when `metadata` is `None` (and also when it is the — value-equal —
empty dict), rendered as `Option.getD []`. -/
def AnomalyEvent.to_dict (e : AnomalyEvent) : EventDict :=
  { detector_id := e.detector_id
    timestamp := e.timestamp
    severity := e.severity.value
    confidence := e.confidence
    data := e.data
    metadata := e.metadata.getD []
    correlation_id := e.correlation_id
    event_id := e.event_id
    anomaly_type := e.anomaly_type
    affected_metrics := e.affected_metrics
    z_scores := e.z_scores
    raw_values := e.raw_values
    predicted_values := e.predicted_values }

/-- Embeds `AnomalyEvent.from_dict` on dictionaries in the shape
`to_dict` produces (every key present, as `EventDict` requires; the
`data.get(..., default)` fallbacks of the source only matter for absent
keys).  `data.get('metadata')` returns the stored dict, so the
reconstructed `metadata` is `some` of it; an unrecognized severity string
raises in Python, rendered as `none`. -/
def AnomalyEvent.from_dict (d : EventDict) : Option AnomalyEvent :=
  match Severity.ofValue d.severity with
  | none => none
  | some s =>
    some
      { detector_id := d.detector_id
        timestamp := d.timestamp
        severity := s
        confidence := d.confidence
        data := d.data
        metadata := some d.metadata
        correlation_id := d.correlation_id
        event_id := d.event_id
        anomaly_type := d.anomaly_type
        affected_metrics := d.affected_metrics
        z_scores := d.z_scores
        raw_values := d.raw_values
        predicted_values := d.predicted_values }

/-! ## Helper lemmas -/

/-- Length of a deque push: the window grows by one until it reaches the
capacity `N`, then stays at `N`. -/
theorem deque_append_length (N : ℕ) (w : List ℚ) (v : ℚ) :
    (deque_append N w v).length = min (w.length + 1) N := by
  simp [deque_append]
  omega

/-- Folding deque pushes over a window keeps exactly the trailing `N`
elements of the concatenation. -/
theorem foldl_deque_append (N : ℕ) (vs : List ℚ) :
    ∀ w : List ℚ, w.length ≤ N →
      vs.foldl (deque_append N) w = (w ++ vs).drop ((w ++ vs).length - N) := by
  induction vs with
  | nil =>
    intro w h
    simp [Nat.sub_eq_zero_of_le h]
  | cons v vs ih =>
    intro w h
    have hlen : (deque_append N w v).length ≤ N := by
      rw [deque_append_length]; omega
    rw [List.foldl_cons, ih (deque_append N w v) hlen]
    have hle : w.length + 1 - N ≤ (w ++ [v]).length := by
      simp
    have h1 : deque_append N w v ++ vs = ((w ++ [v]) ++ vs).drop (w.length + 1 - N) := by
      unfold deque_append
      exact (List.drop_append_of_le_length hle).symm
    rw [h1, List.drop_drop]
    have h2 : (w ++ [v]) ++ vs = w ++ v :: vs := by simp
    rw [h2]
    congr 1
    simp [List.length_drop, List.length_append]
    omega


/-! ## Claim theorems -/

/-- C6: for every capacity and every sequence of pushes, the rolling
window (a fold of `deque_append` from the empty deque) never exceeds
`window_size` elements, and once at least `window_size` values have been
pushed it holds exactly the last `window_size` pushed values in FIFO
order (`vs.drop (vs.length - N)`), the oldest having been evicted. -/
theorem C6_window_bound (N : ℕ) (vs : List ℚ) :
    (vs.foldl (deque_append N) []).length ≤ N
    ∧ (N ≤ vs.length → vs.foldl (deque_append N) [] = vs.drop (vs.length - N)) := by
  have h := foldl_deque_append N vs [] (by simp)
  simp at h
  refine ⟨?_, fun _ => h⟩
  rw [h, List.length_drop]
  omega

/-- Witness for C6 at capacity 3 and five pushes. -/
theorem C6_window_bound_witness :
    (3 : ℕ) ≤ ([1, 2, 3, 4, 5] : List ℚ).length
    ∧ ([1, 2, 3, 4, 5] : List ℚ).foldl (deque_append 3) [] = [3, 4, 5] := by
  refine ⟨by decide, ?_⟩
  rw [(C6_window_bound 3 [1, 2, 3, 4, 5]).2 (by decide)]
  decide

/-- C5: the z-score method never fires when the prior samples have zero
standard deviation (zero population variance) or when fewer than two
window entries are available; the score's division by `std` is reached
only under the `std ≠ 0` guard. -/
theorem C5_zscore_zero_std_guard (threshold value : ℚ) (window_data : List ℚ)
    (h : popVar window_data.dropLast = 0 ∨ window_data.length < 2) :
    detect_zscore_anomaly threshold window_data value = false := by
  unfold detect_zscore_anomaly
  rcases h with h | h
  · by_cases hl : window_data.length < 2
    · simp [hl]
    · simp [hl, h]
  · simp [h]

/-- Witness for C5: prior window `[10, 10, 10, 10, 10]` (variance 0) with
candidate 999 never fires. -/
theorem C5_zscore_zero_std_guard_witness :
    (popVar ([10, 10, 10, 10, 10, 999] : List ℚ).dropLast = 0
      ∨ ([10, 10, 10, 10, 10, 999] : List ℚ).length < 2)
    ∧ detect_zscore_anomaly 3 [10, 10, 10, 10, 10, 999] 999 = false :=
  ⟨Or.inl (by norm_num [popVar, listMean, List.dropLast]),
    C5_zscore_zero_std_guard 3 999 [10, 10, 10, 10, 10, 999]
      (Or.inl (by norm_num [popVar, listMean, List.dropLast]))⟩

/-- C8 (code bug in the source, as §9 of the spec itself notes): the
health check runs `_detect` on the live windows, so for a detector
configured with a metric named `"value"` (or `"test"`) the synthetic
sample pollutes the live window — here the fresh `"value"` window gains
the entry `0.5`, so the externally visible windows are NOT left
unchanged. -/
theorem C8_health_check_mutates :
    (initState { metrics := ["value"] }).windows = [("value", [])]
    ∧ ((health_check { metrics := ["value"] }
          (initState { metrics := ["value"] })).2).windows = [("value", [1 / 2])]
    ∧ ((health_check { metrics := ["value"] }
          (initState { metrics := ["value"] })).2).windows
        ≠ (initState { metrics := ["value"] }).windows := by
  refine ⟨rfl, rfl, ?_⟩
  have h1 : (initState { metrics := ["value"] }).windows = [("value", [])] := rfl
  have h2 : ((health_check { metrics := ["value"] }
      (initState { metrics := ["value"] })).2).windows = [("value", [1 / 2])] := rfl
  rw [h1, h2]
  simp

/-- C1 counterexample: with a two-event batch and a downstream that fails
exactly on the second send attempt, two flush cycles deliver the first
event twice (`sent = [1, 1, 2]`) — delivery is not exactly-once: the
event already sent before the failure is sent again on the retry. -/
theorem C1_exactly_once_counterexample :
    (flush_iter (fun n => n == 1) 2
        ({ buffer := [1, 2], sent := [], attempts := 0 } : DeliveryState ℕ)).sent
      = [1, 1, 2]
    ∧ (flush_iter (fun n => n == 1) 2
        ({ buffer := [1, 2], sent := [], attempts := 0 } : DeliveryState ℕ)).sent.count 1
      ≠ 1 := by
  refine ⟨by decide, by decide⟩

/-- C2 counterexample: with batch `[1, 2]`, a failing downstream, and one
event `3` enqueued while the flush awaits the send, `_flush_batch`'s
`extend` leaves the buffer as `[3, 1, 2]` — the failed batch sits BEHIND
the event enqueued during the failure window, not ahead of it. -/
theorem C2_prepend_counterexample :
    (flush_batch (fun _ => true) [3]
        ({ buffer := [1, 2], sent := [], attempts := 0 } : DeliveryState ℕ)).buffer
      = [3, 1, 2]
    ∧ (flush_batch (fun _ => true) [3]
        ({ buffer := [1, 2], sent := [], attempts := 0 } : DeliveryState ℕ)).buffer
      ≠ [1, 2, 3] := by
  refine ⟨by decide, by decide⟩

/-- C3 counterexample: on window `[1..10, 100]` with candidate 100 both
the z-score test and the (enabled) IQR test fire, yet the event built by
`_detect` records a single evidence, for the z-score method only — the
early `return` in `_detect_anomaly_for_metric` drops the IQR evidence,
so NOT every firing method contributes a `MethodEvidence`. -/
theorem C3_all_methods_counterexample :
    detect_zscore_anomaly 3 [1, 2, 3, 4, 5, 6, 7, 8, 9, 10, 100] 100 = true
    ∧ detect_iqr_anomaly (3 / 2) [1, 2, 3, 4, 5, 6, 7, 8, 9, 10, 100] 100 = true
    ∧ ((detect { metrics := ["cpu"], use_iqr := true }
          { windows := [("cpu", [1, 2, 3, 4, 5, 6, 7, 8, 9, 10])], baseline := [] }
          [("cpu", 100)]).2.map (fun e => e.detection_methods)) = some ["zscore"] := by
  refine ⟨?_, ?_, ?_⟩
  · norm_num [detect_zscore_anomaly, popVar, listMean, List.dropLast]
  · norm_num [detect_iqr_anomaly, percentile, List.insertionSort, List.orderedInsert,
      List.dropLast, show Int.toNat 2 = 2 from rfl, show Int.toNat 6 = 6 from rfl,
      List.getElem_cons_zero, List.getElem_cons_succ]
  · norm_num [detect, process_metric, lookupA, lookupW, insertA, deque_append,
      detect_anomaly_for_metric, detect_zscore_anomaly, zscore_evidence, popVar, listMean,
      List.dropLast]

/-- Severity-to-string round trip of the enum used by the dict
round trip. -/
theorem severity_ofValue_value (s : Severity) : Severity.ofValue s.value = some s := by
  cases s <;> rfl

/-- C10: for every `AnomalyEvent`, `from_dict (to_dict e)` succeeds and
reproduces every field of `e` exactly, except that a `None` metadata
comes back as the empty dict (`some []`); when `metadata` is not `None`,
`e.metadata.getD []` is `e.metadata`'s dict itself, so the round trip
reproduces `e` on every field. -/
theorem C10_to_from_dict_roundtrip (e : AnomalyEvent) :
    AnomalyEvent.from_dict (AnomalyEvent.to_dict e)
      = some { e with metadata := some (e.metadata.getD []) } := by
  unfold AnomalyEvent.from_dict AnomalyEvent.to_dict
  rw [severity_ofValue_value]

/-- C7: the severity of `_calculate_severity` is a function of the
maximum score alone, given by the spec's threshold map `severityOfMax`
(greater than 5 critical, greater than 4 high, greater than 3.5 medium,
otherwise low); consequently a larger maximum score never yields a
lower severity. -/
theorem C7_severity_from_max (a b : ℚ) (l1 l2 : List ℚ)
    (h : maxScore a l1 ≤ maxScore b l2) :
    calculate_severity (a :: l1) = severityOfMax (maxScore a l1)
    ∧ severityRank (calculate_severity (a :: l1))
        ≤ severityRank (calculate_severity (b :: l2)) := by
  constructor
  · rfl
  · show severityRank (severityOfMax (maxScore a l1))
        ≤ severityRank (severityOfMax (maxScore b l2))
    unfold severityOfMax
    split_ifs <;> simp [severityRank] <;> linarith

/-- Witness for C7 with singleton evidence lists of scores 4.5 and 5.5. -/
theorem C7_severity_from_max_witness :
    maxScore (9 / 2) [] ≤ maxScore (11 / 2) []
    ∧ (calculate_severity [9 / 2] = severityOfMax (maxScore (9 / 2) [])
       ∧ severityRank (calculate_severity [9 / 2])
           ≤ severityRank (calculate_severity [11 / 2])) :=
  ⟨by norm_num [maxScore],
    C7_severity_from_max (9 / 2) (11 / 2) [] [] (by norm_num [maxScore])⟩

/-- C9: two fresh detector instances (both in the state produced by
initialization with the same configuration) fed the same ordered sample
sequence produce identical result sequences — in particular equal
severities, confidences (equal squares iff equal nonnegative
confidences) and affected metrics.  The embedded pipeline is a pure
function of configuration and state: the source's only nondeterminism
(wall-clock timestamps and latency metrics) does not influence these
fields. -/
theorem C9_detect_deterministic (cfg : StatConfig) (samples : List (List (String × ℚ)))
    (st1 st2 : DetectorState) (h1 : st1 = initState cfg) (h2 : st2 = initState cfg) :
    (run_detect cfg st1 samples).map
        (Option.map (fun e => (e.severity, e.confidence_sq, e.affected_metrics)))
      = (run_detect cfg st2 samples).map
        (Option.map (fun e => (e.severity, e.confidence_sq, e.affected_metrics))) := by
  rw [h1, h2]

/-- Witness for C9 on a concrete configuration and sample sequence. -/
theorem C9_detect_deterministic_witness :
    (run_detect { metrics := ["cpu"], min_samples := 2 }
        (initState { metrics := ["cpu"], min_samples := 2 })
        [[("cpu", 1)], [("cpu", 2)], [("cpu", 100)]]).map
        (Option.map (fun e => (e.severity, e.confidence_sq, e.affected_metrics)))
      = (run_detect { metrics := ["cpu"], min_samples := 2 }
        (initState { metrics := ["cpu"], min_samples := 2 })
        [[("cpu", 1)], [("cpu", 2)], [("cpu", 100)]]).map
        (Option.map (fun e => (e.severity, e.confidence_sq, e.affected_metrics))) :=
  C9_detect_deterministic { metrics := ["cpu"], min_samples := 2 }
    [[("cpu", 1)], [("cpu", 2)], [("cpu", 100)]] _ _ rfl rfl

/-- C3 (amended): per metric and sample, `_detect_anomaly_for_metric`
records AT MOST ONE `MethodEvidence` — the methods are tried in the
fixed order z-score, IQR, MAD, and only the first that fires is
recorded; in particular whenever the z-score test fires the returned
evidence is the z-score evidence, even if IQR or MAD also fire, and no
evidence is returned exactly when no enabled method fires. -/
theorem C3_first_method_only (cfg : StatConfig) (metric : String) (w : List ℚ) (v : ℚ) :
    (detect_zscore_anomaly cfg.std_dev_threshold w v = true →
      detect_anomaly_for_metric cfg metric w v
        = some (zscore_evidence cfg.std_dev_threshold metric w v))
    ∧ (detect_zscore_anomaly cfg.std_dev_threshold w v = false →
        cfg.use_iqr = true → detect_iqr_anomaly cfg.iqr_multiplier w v = true →
        detect_anomaly_for_metric cfg metric w v
          = some (iqr_evidence cfg.iqr_multiplier metric w v))
    ∧ (detect_anomaly_for_metric cfg metric w v = none ↔
        detect_zscore_anomaly cfg.std_dev_threshold w v = false
        ∧ (cfg.use_iqr = false ∨ detect_iqr_anomaly cfg.iqr_multiplier w v = false)
        ∧ (cfg.use_mad = false ∨ detect_mad_anomaly cfg.mad_threshold w v = false)) := by
  refine ⟨fun h => by simp [detect_anomaly_for_metric, h], fun h hi hf => by
    simp [detect_anomaly_for_metric, h, hi, hf], ?_⟩
  cases hz : detect_zscore_anomaly cfg.std_dev_threshold w v <;>
    cases hi : cfg.use_iqr <;>
      cases hif : detect_iqr_anomaly cfg.iqr_multiplier w v <;>
        cases hm : cfg.use_mad <;>
          cases hmf : detect_mad_anomaly cfg.mad_threshold w v <;>
            simp [detect_anomaly_for_metric, hz, hi, hif, hm, hmf]

/-- Witness for C3 (amended) at the counterexample's inputs: z-score
fires, so the single recorded evidence is the z-score one. -/
theorem C3_first_method_only_witness :
    detect_anomaly_for_metric { metrics := ["cpu"], use_iqr := true } "cpu"
        [1, 2, 3, 4, 5, 6, 7, 8, 9, 10, 100] 100
      = some (zscore_evidence 3 "cpu" [1, 2, 3, 4, 5, 6, 7, 8, 9, 10, 100] 100) :=
  (C3_first_method_only { metrics := ["cpu"], use_iqr := true } "cpu"
      [1, 2, 3, 4, 5, 6, 7, 8, 9, 10, 100] 100).1
    (by norm_num [detect_zscore_anomaly, popVar, listMean, List.dropLast])

/-- Looking up the freshly written key returns the written value. -/
theorem lookupA_insertA_self {β : Type} (l : List (String × β)) (k : String) (v : β) :
    lookupA (insertA l k v) k = some v := by
  induction l with
  | nil => simp [insertA, lookupA]
  | cons p rest ih =>
    obtain ⟨k', v'⟩ := p
    by_cases h : k' = k
    · simp [insertA, h, lookupA]
    · simp [insertA, h, lookupA, ih]

/-- Writing one key leaves lookups of every other key unchanged. -/
theorem lookupA_insertA_ne {β : Type} (l : List (String × β)) (k m : String) (v : β)
    (h : m ≠ k) :
    lookupA (insertA l k v) m = lookupA l m := by
  induction l with
  | nil => simp [insertA, lookupA, Ne.symm h]
  | cons p rest ih =>
    obtain ⟨k', v'⟩ := p
    by_cases hk : k' = k
    · simp [insertA, hk, lookupA, Ne.symm h]
    · simp [insertA, hk, lookupA, ih]

/-- Window view of `lookupA_insertA_self`. -/
theorem lookupW_insertA_self (ws : List (String × List ℚ)) (k : String) (w : List ℚ) :
    lookupW (insertA ws k w) k = w := by
  rw [lookupW, lookupA_insertA_self]
  rfl

/-- Window view of `lookupA_insertA_ne`. -/
theorem lookupW_insertA_ne (ws : List (String × List ℚ)) (k m : String) (w : List ℚ)
    (h : m ≠ k) :
    lookupW (insertA ws k w) m = lookupW ws m := by
  rw [lookupW, lookupA_insertA_ne _ _ _ _ h, lookupW]

/-- Every binding of an updated association list either has the written
key or was already present. -/
theorem mem_insertA {β : Type} (l : List (String × β)) (k : String) (v : β)
    (p : String × β) (h : p ∈ insertA l k v) : p.1 = k ∨ p ∈ l := by
  induction l with
  | nil =>
    simp [insertA] at h
    left
    rw [h]
  | cons q rest ih =>
    obtain ⟨k', v'⟩ := q
    by_cases hk : k' = k
    · simp [insertA, hk] at h
      rcases h with h | h
      · left; rw [h]
      · right; exact List.mem_cons_of_mem _ h
    · simp [insertA, hk] at h
      rcases h with h | h
      · right; rw [h]; exact List.mem_cons_self _ _
      · rcases ih h with h1 | h1
        · left; exact h1
        · right; exact List.mem_cons_of_mem _ h1

/-- Loop invariant of `_detect`: one iteration of `process_metric` for a
metric not seen again preserves "every recorded z-score belongs to a
metric whose (updated) window already holds at least `min_samples`
entries". -/
theorem process_metric_inv (cfg : StatConfig) (data : List (String × ℚ))
    (metric : String) (ms : List String) (acc : DetectAcc)
    (hm : metric ∉ ms)
    (hinv : ∀ p : String × ℚ, p ∈ acc.z_scores →
      cfg.min_samples ≤ (lookupW acc.windows p.1).length ∧ p.1 ∉ metric :: ms) :
    ∀ p : String × ℚ, p ∈ (process_metric cfg data acc metric).z_scores →
      cfg.min_samples ≤ (lookupW (process_metric cfg data acc metric).windows p.1).length
      ∧ p.1 ∉ ms := by
  intro p hp
  cases hd : lookupA data metric with
  | none =>
    simp only [process_metric, hd] at hp ⊢
    obtain ⟨h1, h2⟩ := hinv p hp
    exact ⟨h1, fun hx => h2 (List.mem_cons_of_mem _ hx)⟩
  | some value =>
    by_cases hlen :
        (deque_append cfg.window_size (lookupW acc.windows metric) value).length
          < cfg.min_samples
    · simp only [process_metric, hd, if_pos hlen] at hp ⊢
      obtain ⟨h1, h2⟩ := hinv p hp
      have hne : p.1 ≠ metric := fun e => h2 (e ▸ List.mem_cons_self _ _)
      rw [lookupW_insertA_ne _ _ _ _ hne]
      exact ⟨h1, fun hx => h2 (List.mem_cons_of_mem _ hx)⟩
    · cases hdet : detect_anomaly_for_metric cfg metric
          (deque_append cfg.window_size (lookupW acc.windows metric) value) value with
      | none =>
        simp only [process_metric, hd, if_neg hlen, hdet] at hp ⊢
        obtain ⟨h1, h2⟩ := hinv p hp
        have hne : p.1 ≠ metric := fun e => h2 (e ▸ List.mem_cons_self _ _)
        rw [lookupW_insertA_ne _ _ _ _ hne]
        exact ⟨h1, fun hx => h2 (List.mem_cons_of_mem _ hx)⟩
      | some info =>
        simp only [process_metric, hd, if_neg hlen, hdet] at hp ⊢
        rcases mem_insertA _ _ _ _ hp with h | h
        · rw [h, lookupW_insertA_self]
          exact ⟨by omega, h ▸ hm⟩
        · obtain ⟨h1, h2⟩ := hinv p h
          have hne : p.1 ≠ metric := fun e => h2 (e ▸ List.mem_cons_self _ _)
          rw [lookupW_insertA_ne _ _ _ _ hne]
          exact ⟨h1, fun hx => h2 (List.mem_cons_of_mem _ hx)⟩

/-- Folding `process_metric` over a duplicate-free metric list: every
recorded z-score entry belongs to a metric whose final window holds at
least `min_samples` entries. -/
theorem foldl_process_inv (cfg : StatConfig) (data : List (String × ℚ)) :
    ∀ (ms : List String) (acc : DetectAcc), ms.Nodup →
      (∀ p : String × ℚ, p ∈ acc.z_scores →
        cfg.min_samples ≤ (lookupW acc.windows p.1).length ∧ p.1 ∉ ms) →
      ∀ p : String × ℚ, p ∈ (ms.foldl (process_metric cfg data) acc).z_scores →
        cfg.min_samples
          ≤ (lookupW (ms.foldl (process_metric cfg data) acc).windows p.1).length := by
  intro ms
  induction ms with
  | nil =>
    intro acc _ hinv p hp
    exact (hinv p hp).1
  | cons metric rest ih =>
    intro acc hnd hinv p hp
    rw [List.foldl_cons] at hp ⊢
    have hnd' := List.nodup_cons.mp hnd
    exact ih (process_metric cfg data acc metric) hnd'.2
      (process_metric_inv cfg data metric rest acc hnd'.1 hinv) p hp

/-- C4: if after a `detect` call a metric's rolling window still holds
fewer than `min_samples` entries (the candidate value having been
pushed), then the returned event — if any — does not list that metric in
`affected_metrics`: scoring is skipped below `min_samples`
(duplicate-free configured metric list, as the source's dict of windows
guarantees). -/
theorem C4_no_fire_below_min_samples (cfg : StatConfig) (st : DetectorState)
    (data : List (String × ℚ)) (m : String) (ev : AnomalyEventOut)
    (hnd : cfg.metrics.Nodup)
    (hev : (detect cfg st data).2 = some ev)
    (hlen : (lookupW (detect cfg st data).1.windows m).length < cfg.min_samples) :
    m ∉ ev.affected_metrics := by
  simp only [detect] at hev hlen
  have hinv := foldl_process_inv cfg data cfg.metrics
    { windows := st.windows, anomalies := [], z_scores := [],
      raw_values := [], predicted_values := [] }
    hnd (by intro p hp; simp at hp)
  generalize hacc : cfg.metrics.foldl (process_metric cfg data)
    { windows := st.windows, anomalies := [], z_scores := [],
      raw_values := [], predicted_values := [] } = acc at hev hlen hinv
  cases hano : acc.anomalies with
  | nil =>
    rw [hano] at hev
    simp at hev
  | cons e es =>
    rw [hano] at hev hlen
    simp only [Option.some.injEq] at hev
    subst hev
    intro hmem
    simp only at hmem
    obtain ⟨p, hp, hpm⟩ := List.mem_map.mp hmem
    have h1 := hinv p hp
    rw [hpm] at h1
    simp only at hlen
    omega

/-- Witness for C4: metric `"a"` (11 samples) fires while metric `"b"`
has a single sample, below `min_samples = 2`; the event's affected
metrics exclude `"b"`. -/
theorem C4_no_fire_below_min_samples_witness :
    ({ metrics := ["a", "b"], min_samples := 2 } : StatConfig).metrics.Nodup
    ∧ (detect { metrics := ["a", "b"], min_samples := 2 }
          { windows := [("a", [1, 2, 3]), ("b", [])], baseline := [] }
          [("a", 100), ("b", 7)]).2
        = some
          { severity := Severity.critical
            confidence_sq := 1 / 625
            data := [("a", 100), ("b", 7)]
            anomaly_type := "statistical_outlier"
            affected_metrics := ["a"]
            z_scores := [("a", 14406)]
            raw_values := [("a", 100), ("b", 7)]
            predicted_values := [("a", 2)]
            detection_methods := ["zscore"] }
    ∧ (lookupW (detect { metrics := ["a", "b"], min_samples := 2 }
          { windows := [("a", [1, 2, 3]), ("b", [])], baseline := [] }
          [("a", 100), ("b", 7)]).1.windows "b").length
        < ({ metrics := ["a", "b"], min_samples := 2 } : StatConfig).min_samples
    ∧ "b" ∉
        ({ severity := Severity.critical
           confidence_sq := 1 / 625
           data := [("a", 100), ("b", 7)]
           anomaly_type := "statistical_outlier"
           affected_metrics := ["a"]
           z_scores := [("a", 14406)]
           raw_values := [("a", 100), ("b", 7)]
           predicted_values := [("a", 2)]
           detection_methods := ["zscore"] } : AnomalyEventOut).affected_metrics := by
  have hnd : ({ metrics := ["a", "b"], min_samples := 2 } : StatConfig).metrics.Nodup := by
    decide
  have hev : (detect { metrics := ["a", "b"], min_samples := 2 }
      { windows := [("a", [1, 2, 3]), ("b", [])], baseline := [] }
      [("a", 100), ("b", 7)]).2
      = some
        { severity := Severity.critical
          confidence_sq := 1 / 625
          data := [("a", 100), ("b", 7)]
          anomaly_type := "statistical_outlier"
          affected_metrics := ["a"]
          z_scores := [("a", 14406)]
          raw_values := [("a", 100), ("b", 7)]
          predicted_values := [("a", 2)]
          detection_methods := ["zscore"] } := by
    norm_num [detect, process_metric, lookupA, lookupW, insertA, deque_append,
      detect_anomaly_for_metric, detect_zscore_anomaly, zscore_evidence, popVar, listMean,
      List.dropLast, calculate_severity_sq, calculate_confidence_sq, maxScore, min_def,
      show ¬("a" = "b") from by decide, show ¬("b" = "a") from by decide]
  have hlen : (lookupW (detect { metrics := ["a", "b"], min_samples := 2 }
      { windows := [("a", [1, 2, 3]), ("b", [])], baseline := [] }
      [("a", 100), ("b", 7)]).1.windows "b").length
      < ({ metrics := ["a", "b"], min_samples := 2 } : StatConfig).min_samples := by
    norm_num [detect, process_metric, lookupA, lookupW, insertA, deque_append,
      detect_anomaly_for_metric, detect_zscore_anomaly, zscore_evidence, popVar, listMean,
      List.dropLast, show ¬("a" = "b") from by decide, show ¬("b" = "a") from by decide]
  exact ⟨hnd, hev, hlen,
    C4_no_fire_below_min_samples { metrics := ["a", "b"], min_samples := 2 }
      { windows := [("a", [1, 2, 3]), ("b", [])], baseline := [] }
      [("a", 100), ("b", 7)] "b" _ hnd hev hlen⟩

/-- When no send attempt in range fails, `_send_batch_to_ads` delivers
the whole batch in order and advances the attempt counter by the batch
length. -/
theorem send_batch_success {α : Type} (fault : ℕ → Bool) :
    ∀ (es sent : List α) (a : ℕ),
      (∀ i, i < es.length → fault (a + i) = false) →
      send_batch_to_ads fault es sent a = (sent ++ es, a + es.length, true) := by
  intro es
  induction es with
  | nil =>
    intro sent a _
    simp [send_batch_to_ads]
  | cons e rest ih =>
    intro sent a h
    have h0 : fault a = false := by simpa using h 0 (by simp)
    rw [send_batch_to_ads, h0]
    have hr : ∀ i, i < rest.length → fault (a + 1 + i) = false := by
      intro i hi
      have := h (i + 1) (by simp; omega)
      rw [show a + 1 + i = a + (i + 1) by omega]
      exact this
    rw [if_neg (by simp), ih (sent ++ [e]) (a + 1) hr]
    simp
    omega

/-- When the first failing attempt is the one for position `j` of the
batch, `_send_batch_to_ads` delivers exactly the first `j` events, burns
`j + 1` attempts, and reports failure. -/
theorem send_batch_fail_at {α : Type} (fault : ℕ → Bool) :
    ∀ (es : List α) (j : ℕ) (sent : List α) (a : ℕ),
      j < es.length → (∀ i, i < j → fault (a + i) = false) → fault (a + j) = true →
      send_batch_to_ads fault es sent a = (sent ++ es.take j, a + j + 1, false) := by
  intro es
  induction es with
  | nil =>
    intro j sent a hj
    simp at hj
  | cons e rest ih =>
    intro j sent a hj hsmall hfail
    cases j with
    | zero =>
      have h0 : fault a = true := by simpa using hfail
      rw [send_batch_to_ads, h0]
      simp
    | succ j' =>
      have h0 : fault a = false := by simpa using hsmall 0 (Nat.succ_pos _)
      have hr : ∀ i, i < j' → fault (a + 1 + i) = false := by
        intro i hi
        have := hsmall (i + 1) (by omega)
        rw [show a + 1 + i = a + (i + 1) by omega]
        exact this
      have hf : fault (a + 1 + j') = true := by
        rw [show a + 1 + j' = a + (j' + 1) by omega]
        exact hfail
      rw [send_batch_to_ads, h0, if_neg (by simp),
        ih j' (sent ++ [e]) (a + 1) (by simpa using hj) hr hf]
      simp
      omega

/-- A failing flush leaves the re-added batch AFTER the concurrent
arrivals (the source's `extend`). -/
theorem flush_batch_of_fail {α : Type} (fault : ℕ → Bool) (arrivals : List α)
    (st : DeliveryState α) (hne : st.buffer ≠ [])
    (sent2 : List α) (att2 : ℕ)
    (hsend : send_batch_to_ads fault st.buffer st.sent st.attempts = (sent2, att2, false)) :
    flush_batch fault arrivals st =
      { buffer := arrivals ++ st.buffer, sent := sent2, attempts := att2 } := by
  rw [flush_batch, if_neg (by simp [hne]), hsend]

/-- A successful flush leaves exactly the concurrent arrivals buffered
and the batch appended to the sink log. -/
theorem flush_batch_of_success {α : Type} (fault : ℕ → Bool) (arrivals : List α)
    (st : DeliveryState α) (hne : st.buffer ≠ [])
    (sent2 : List α) (att2 : ℕ)
    (hsend : send_batch_to_ads fault st.buffer st.sent st.attempts = (sent2, att2, true)) :
    flush_batch fault arrivals st = { buffer := arrivals, sent := sent2, attempts := att2 } := by
  rw [flush_batch, if_neg (by simp [hne]), hsend]

/-- A single flush cycle. -/
theorem flush_iter_one {α : Type} (fault : ℕ → Bool) (st : DeliveryState α) :
    flush_iter fault 1 st = flush_batch fault [] st := rfl

/-- Splitting an iterated flush. -/
theorem flush_iter_add {α : Type} (fault : ℕ → Bool) (m n : ℕ) (st : DeliveryState α) :
    flush_iter fault (m + n) st = flush_iter fault n (flush_iter fault m st) := by
  induction m generalizing st with
  | zero => simp [flush_iter]
  | succ m ih =>
    rw [show m + 1 + n = (m + n) + 1 by omega, flush_iter, ih]
    rfl

/-- While every attempt fails, each flush cycle sends nothing, burns one
attempt (the batch's first event fails immediately) and re-buffers the
whole batch. -/
theorem flush_iter_all_fail {α : Type} (fault : ℕ → Bool) (es sent : List α)
    (hne : es ≠ []) :
    ∀ (i a : ℕ), (∀ j, j < i → fault (a + j) = true) →
      flush_iter fault i { buffer := es, sent := sent, attempts := a }
        = { buffer := es, sent := sent, attempts := a + i } := by
  intro i
  induction i with
  | zero =>
    intro a _
    simp [flush_iter]
  | succ i ih =>
    intro a h
    have h0 : fault (a + 0) = true := h 0 (Nat.succ_pos _)
    have hsend := send_batch_fail_at fault es 0 sent a
      (by cases es with | nil => exact absurd rfl hne | cons x xs => simp) (by omega) h0
    have hnext : ∀ j, j < i → fault (a + 0 + 1 + j) = true := by
      intro j hj
      rw [show a + 0 + 1 + j = a + (j + 1) by omega]
      exact h (j + 1) (by omega)
    rw [flush_iter, flush_batch_of_fail fault [] _ hne _ _ hsend]
    simp only [List.take_zero, List.append_nil, List.nil_append]
    rw [ih (a + 0 + 1) hnext]
    rw [show a + 0 + 1 + i = a + (i + 1) by omega]

/-- Ingesting events while staying strictly below `max_batch_size` never
triggers a flush: the buffer just grows in FIFO order. -/
theorem ingest_many_no_flush {α : Type} (fault : ℕ → Bool) (max_batch_size : ℕ) :
    ∀ (news : List α) (st : DeliveryState α),
      st.buffer.length + news.length < max_batch_size →
      (ingest_many fault max_batch_size st news).buffer = st.buffer ++ news := by
  intro news
  induction news with
  | nil =>
    intro st _
    simp [ingest_many]
  | cons a rest ih =>
    intro st h
    have hno : ¬ max_batch_size ≤ (st.buffer ++ [a]).length := by
      simp at h ⊢
      omega
    have step : ingest_anomaly fault max_batch_size st a
        = { buffer := st.buffer ++ [a], sent := st.sent, attempts := st.attempts } := by
      rw [ingest_anomaly, if_neg hno]
    have ihr := ih { buffer := st.buffer ++ [a], sent := st.sent, attempts := st.attempts }
      (by simp at h ⊢; omega)
    rw [ingest_many, List.foldl_cons, step]
    rw [ingest_many] at ihr
    rw [ihr]
    simp

/-- C1 (amended): delivery is at-least-once, not exactly-once.  First
conjunct: if the downstream fails on the first `N` send attempts (each
failed flush aborts on its batch's first event) and then recovers, the
`N + 1`-st flush delivers every enqueued event exactly once in FIFO
order.  Second conjunct: if instead a flush fails after `k` events of
the batch have already been sent, the whole batch is re-buffered and the
next flush re-sends it entirely, so the sink receives
`es.take k ++ es` — nothing is lost, but the `k` events sent before the
failure are delivered twice. -/
theorem C1_delivery_at_least_once {α : Type} (es : List α) (N k : ℕ)
    (hk : k < es.length) :
    flush_iter (fun n => decide (n < N)) (N + 1)
        { buffer := es, sent := [], attempts := 0 }
      = { buffer := [], sent := es, attempts := N + es.length }
    ∧ flush_iter (fun n => decide (n = k)) 2
        { buffer := es, sent := [], attempts := 0 }
      = { buffer := [], sent := es.take k ++ es, attempts := k + 1 + es.length } := by
  have hne : es ≠ [] := by
    intro h
    rw [h] at hk
    simp at hk
  constructor
  · rw [flush_iter_add _ N 1]
    rw [flush_iter_all_fail _ es [] hne N 0 (by intro j hj; simp; omega)]
    have hsend := send_batch_success (fun n => decide (n < N)) es [] (0 + N)
      (by intro i _; simp)
    rw [flush_iter_one, flush_batch_of_success _ [] _ hne _ _ hsend]
    simp
  · have hsend1 := send_batch_fail_at (fun n => decide (n = k)) es k [] 0
      hk (by intro i hi; simp; omega) (by simp)
    have h1 : flush_batch (fun n => decide (n = k)) []
        { buffer := es, sent := [], attempts := 0 }
        = { buffer := es, sent := List.take k es, attempts := k + 1 } := by
      rw [flush_batch_of_fail _ [] _ hne _ _ hsend1]
      simp
    have hsend2 := send_batch_success (fun n => decide (n = k)) es (List.take k es)
      (k + 1) (by intro i _; simp; omega)
    have h2 : flush_batch (fun n => decide (n = k)) []
        { buffer := es, sent := List.take k es, attempts := k + 1 }
        = { buffer := [], sent := List.take k es ++ es,
            attempts := k + 1 + es.length } := by
      rw [flush_batch_of_success _ [] _ hne _ _ hsend2]
    rw [show (2 : ℕ) = 1 + 1 from rfl, flush_iter_add _ 1 1, flush_iter_one,
      flush_iter_one, h1, h2]

/-- Witness for C1 (amended) with batch `[10, 20]`, two early failures
(`N = 2`), and a mid-batch failure at position `k = 1`. -/
theorem C1_delivery_at_least_once_witness :
    (1 < ([10, 20] : List ℕ).length)
    ∧ (flush_iter (fun n => decide (n < 2)) 3
          ({ buffer := [10, 20], sent := [], attempts := 0 } : DeliveryState ℕ)
        = { buffer := [], sent := [10, 20], attempts := 4 }
      ∧ flush_iter (fun n => decide (n = 1)) 2
          ({ buffer := [10, 20], sent := [], attempts := 0 } : DeliveryState ℕ)
        = { buffer := [], sent := [10, 10, 20], attempts := 4 }) :=
  ⟨by decide, C1_delivery_at_least_once [10, 20] 2 1 (by decide)⟩

/-- C2 (amended): when a flush's send fails, the entire failed batch is
re-added to the live queue by `extend` — AFTER any events enqueued
during the send window (each group in FIFO order), and the error is
swallowed rather than raised (the model is total).  When no events
arrive during the send, the queue is exactly the failed batch, and
events enqueued after the failed flush (staying below
`max_batch_size`) line up behind it. -/
theorem C2_failed_batch_requeue {α : Type} (fault : ℕ → Bool) (max_batch_size : ℕ)
    (arrivals news : List α) (st : DeliveryState α)
    (hne : st.buffer ≠ [])
    (sent2 : List α) (att2 : ℕ)
    (hsend : send_batch_to_ads fault st.buffer st.sent st.attempts = (sent2, att2, false))
    (hcap : st.buffer.length + news.length < max_batch_size) :
    (flush_batch fault arrivals st).buffer = arrivals ++ st.buffer
    ∧ (ingest_many fault max_batch_size (flush_batch fault [] st) news).buffer
        = st.buffer ++ news := by
  constructor
  · rw [flush_batch_of_fail fault arrivals st hne sent2 att2 hsend]
  · rw [flush_batch_of_fail fault [] st hne sent2 att2 hsend]
    have := ingest_many_no_flush fault max_batch_size news
      { buffer := [] ++ st.buffer, sent := sent2, attempts := att2 }
      (by simpa using hcap)
    simpa using this

/-- Witness for C2 (amended): failing downstream, batch `[1, 2]`, arrival
`3` during the send, enqueue `4` after the failed flush. -/
theorem C2_failed_batch_requeue_witness :
    (([1, 2] : List ℕ) ≠ [])
    ∧ send_batch_to_ads (fun _ => true) [1, 2] ([] : List ℕ) 0 = ([], 1, false)
    ∧ (2 + 1 < 10)
    ∧ ((flush_batch (fun _ => true) [3]
          ({ buffer := [1, 2], sent := [], attempts := 0 } : DeliveryState ℕ)).buffer
        = [3] ++ [1, 2]
      ∧ (ingest_many (fun _ => true) 10
          (flush_batch (fun _ => true) []
            ({ buffer := [1, 2], sent := [], attempts := 0 } : DeliveryState ℕ)) [4]).buffer
        = [1, 2] ++ [4]) :=
  ⟨by decide, by decide, by decide,
    C2_failed_batch_requeue (fun _ => true) 10 [3] [4]
      { buffer := [1, 2], sent := [], attempts := 0 } (by decide) [] 1 (by decide)
      (by decide)⟩
